import Mathlib

/-!
Verification of the client-side file-staging and submission logic of the
`dynamodb_s3` upload form (source: `src/client/src/App.tsx`).

The component owns a `FileState` (a mapping from the four fixed categories
to ordered lists of staged files) and an error-message string, and exposes
three operations: `handleFileChange` (select files for a category),
`removeFile` (dismiss one staged file), and `handleSubmit` (flatten the
state into one multipart payload and POST it).  Everything below is a
shallow embedding of that code: JavaScript truthiness on the nullable
`FileList` argument and on the `||` fallbacks is made explicit, the network
is a parameter mapping the issued request to its outcome, and the observable
effects of a submission (final state, requests issued, blocking alerts
shown) are returned as data.
-/

namespace UploadForm

/-- An opaque file handle; only its name is ever observed by this code. -/
structure File where
  name : String
deriving DecidableEq, Repr

/-- The four fixed categories, in the declaration order of the
`FileState` interface (which is also the object-key iteration order). -/
inductive Category where
  | images
  | pdf
  | json
  | txt
deriving DecidableEq, Repr

/-- `interface FileState`: one ordered sequence of files per category. -/
structure FileState where
  images : List File
  pdf : List File
  json : List File
  txt : List File
deriving DecidableEq, Repr

/-- Read a category's sequence. -/
def FileState.get (f : FileState) : Category → List File
  | .images => f.images
  | .pdf => f.pdf
  | .json => f.json
  | .txt => f.txt

/-- Replace a category's sequence (the `...prev, [fileType]: v` spread). -/
def FileState.set (f : FileState) : Category → List File → FileState
  | .images, v => { f with images := v }
  | .pdf, v => { f with pdf := v }
  | .json, v => { f with json := v }
  | .txt, v => { f with txt := v }

/-- The all-empty state used at mount and after a successful upload. -/
def FileState.empty : FileState :=
  { images := [], pdf := [], json := [], txt := [] }

/-- The component's state: the staged files plus the error banner text
(`""` means no error is shown, matching `useState<string>("")`). -/
structure AppState where
  files : FileState
  error : String
deriving DecidableEq, Repr

/-- `handleFileChange(fileType, selectedFiles)`.  The argument is
`FileList | null`; `none` models `null` (falsy, skips the branch) and
`some sel` models any actual `FileList`, which is truthy in JavaScript
even when it has zero entries, so the branch replaces the category's
sequence with `sel` and clears the error. -/
def handleFileChange (s : AppState) (fileType : Category)
    (selectedFiles : Option (List File)) : AppState :=
  match selectedFiles with
  | some sel => { files := s.files.set fileType sel, error := "" }
  | none => s

/-- `prev[fileType].filter((_, i) => i !== index)`: keep every element
whose position differs from `index`. -/
def filterIdxNe (l : List File) (index : Nat) : List File :=
  (l.enum.filter fun p => p.1 ≠ index).map Prod.snd

/-- `removeFile(fileType, index)`: filter the category's sequence by
position.  The error banner is not touched. -/
def removeFile (s : AppState) (fileType : Category) (index : Nat) : AppState :=
  { s with files := s.files.set fileType (filterIdxNe (s.files.get fileType) index) }

/-- One part of the multipart payload: `formData.append(fieldName, file)`. -/
structure Part where
  fieldName : String
  file : File
deriving DecidableEq, Repr

/-- The single outbound request observed by the network layer. -/
structure Request where
  method : String
  url : String
  body : List Part
deriving DecidableEq, Repr

/-- The field name used for a category: the category name verbatim
(template literal `${fileType}` on the object key). -/
def Category.fieldOf : Category → String
  | .images => "images"
  | .pdf => "pdf"
  | .json => "json"
  | .txt => "txt"

/-- `Object.keys(files)` iteration order: insertion order of the literal. -/
def categoryOrder : List Category := [.images, .pdf, .json, .txt]

/-- Build the `FormData`: for each category in key order, append every
staged file under the category's name as field name. -/
def buildFormData (f : FileState) : List Part :=
  categoryOrder.flatMap fun c => (f.get c).map fun fl => ⟨c.fieldOf, fl⟩

/-- The parsed JSON body of a server response.  `uploaded_files` is the
server-reported list of accepted file names (absent when the field is
missing); `error` is the optional error string (which may be present yet
empty — JavaScript treats `""` as falsy in `result.error || ...`). -/
structure ResponseBody where
  uploaded_files : Option (List String)
  error : Option String
deriving DecidableEq, Repr

/-- Outcome of `fetch(...)` followed by `response.json()`:
either the fetch itself rejects (transport failure, carrying the thrown
error's optional `message`), or a response arrives with an `ok` flag and a
body that `response.json()` either parses or fails to parse (throwing an
error with an optional `message`). -/
inductive FetchOutcome where
  | transportFail (message : Option String)
  | response (ok : Bool) (jsonBody : Except (Option String) ResponseBody)
deriving Repr

/-- JavaScript `x || fallback` on an optional string: the fallback is used
when the value is absent or empty (both falsy). -/
def orFallback (x : Option String) (fallback : String) : String :=
  match x with
  | some v => if v = "" then fallback else v
  | none => fallback

/-- `JSON.stringify(result.uploaded_files, null, 2)` restricted to the
string-array bodies this model carries; an absent field prints as
`undefined`, exactly as stringifying `undefined` interpolates. -/
def stringifyUploaded : Option (List String) → String
  | none => "undefined"
  | some [] => "[]"
  | some xs =>
      "[\n" ++ String.intercalate ",\n" (xs.map fun x => "  \"" ++ x ++ "\"") ++ "\n]"

/-- `Object.values(files).some((fileArray) => fileArray.length > 0)`. -/
def hasAnyFiles (f : FileState) : Bool :=
  [f.images, f.pdf, f.json, f.txt].any fun a => a.length > 0

/-- The observable effects of one `handleSubmit` call: the component state
afterwards, the requests issued (in order), and the blocking `alert`
confirmations surfaced (in order). -/
structure SubmitResult where
  state : AppState
  requests : List Request
  alerts : List String
deriving DecidableEq, Repr

/-- The fixed no-files validation message. -/
def noFilesMsg : String := "Please select at least one file before submitting."

/-- The generic fallback when a failure response carries no usable error. -/
def uploadFailedMsg : String := "Upload failed"

/-- The generic fallback when the thrown error carries no usable message. -/
def uploadErrorMsg : String := "Upload error occurred"

/-- The one request `handleSubmit` issues once the guard passes:
`fetch("http://localhost:5000/upload", { method: "POST", body: formData })`. -/
def uploadRequest (f : FileState) : Request :=
  { method := "POST", url := "http://localhost:5000/upload",
    body := buildFormData f }

/-- `handleSubmit()`.  `net` is the environment: it maps the issued request
to its fetch outcome.  Faithful to the source: the guard runs first and
short-circuits with no request; otherwise the form data is built, one POST
is issued, and — crucially — `response.json()` is awaited *before*
`response.ok` is inspected, so a parse failure lands in the `catch` branch
regardless of the status. -/
def handleSubmit (s : AppState) (net : Request → FetchOutcome) : SubmitResult :=
  if ¬ hasAnyFiles s.files then
    { state := { s with error := noFilesMsg }, requests := [], alerts := [] }
  else
    match net (uploadRequest s.files) with
    | .transportFail msg =>
        { state := { s with error := orFallback msg uploadErrorMsg },
          requests := [uploadRequest s.files], alerts := [] }
    | .response ok jsonBody =>
        match jsonBody with
        | .error msg =>
            { state := { s with error := orFallback msg uploadErrorMsg },
              requests := [uploadRequest s.files], alerts := [] }
        | .ok result =>
            if ok then
              { state := { files := FileState.empty, error := "" },
                requests := [uploadRequest s.files],
                alerts := ["Files uploaded successfully: " ++
                  stringifyUploaded result.uploaded_files] }
            else
              { state := { s with error := orFallback result.error uploadFailedMsg },
                requests := [uploadRequest s.files], alerts := [] }

/-! ## Helper lemmas -/

/-- Filtering an enumeration (from any starting offset) by "position is not
`index`" keeps the list intact when `index` lies before the offset, and
otherwise deletes exactly the element `index - n` positions in. -/
lemma enumFrom_filter_ne_map (t : List File) (n index : Nat) :
    ((t.enumFrom n).filter fun p => p.1 ≠ index).map Prod.snd =
      if n ≤ index then t.take (index - n) ++ t.drop (index - n + 1) else t := by
  induction t generalizing n with
  | nil => simp
  | cons a t ih =>
    simp only [ne_eq, decide_not] at ih ⊢
    rcases Nat.lt_trichotomy n index with hlt | heq | hgt
    · have hne : n ≠ index := Nat.ne_of_lt hlt
      have h3 : index - n = (index - (n + 1)) + 1 := by omega
      have h4 : n + 1 ≤ index := hlt
      simp [List.enumFrom_cons, List.filter_cons, hne, ih (n + 1),
        Nat.le_of_lt hlt, h4, h3]
    · subst heq
      have h5 : ¬ (n + 1 ≤ n) := Nat.not_succ_le_self n
      simp [List.enumFrom_cons, List.filter_cons, ih (n + 1), h5]
    · have hne : n ≠ index := by omega
      have h6 : ¬ (n ≤ index) := by omega
      have h7 : ¬ (n + 1 ≤ index) := by omega
      simp [List.enumFrom_cons, List.filter_cons, hne, ih (n + 1), h6, h7]

/-- The source's `filter((_, i) => i !== index)` idiom deletes exactly the
element at position `index` (and is the identity out of range). -/
lemma filterIdxNe_spec (l : List File) (i : Nat) :
    filterIdxNe l i =
      if i < l.length then l.take i ++ l.drop (i + 1) else l := by
  unfold filterIdxNe
  rw [show l.enum = l.enumFrom 0 from rfl, enumFrom_filter_ne_map l 0 i,
    if_pos (Nat.zero_le i)]
  simp only [Nat.sub_zero]
  split
  · rfl
  · next h =>
      rw [List.take_of_length_le (by omega), List.drop_eq_nil_of_le (by omega),
        List.append_nil]

/-- Reading back the category just written. -/
lemma FileState.get_set_same (f : FileState) (c : Category) (v : List File) :
    (f.set c v).get c = v := by
  cases c <;> rfl

/-- Writing one category leaves every other category unchanged. -/
lemma FileState.get_set_other (f : FileState) (c c2 : Category) (v : List File)
    (h : c2 ≠ c) :
    (f.set c v).get c2 = f.get c2 := by
  cases c <;> cases c2 <;> first | rfl | exact absurd rfl h

/-- `removeFile` filters exactly the targeted category's sequence. -/
lemma removeFile_get (s : AppState) (c : Category) (i : Nat) :
    (removeFile s c i).files.get c = filterIdxNe (s.files.get c) i := by
  cases c <;> rfl

/-- The form data spelled out: category key order with the category name as
field name, all of a category's files consecutively. -/
lemma buildFormData_eq (f : FileState) :
    buildFormData f =
      f.images.map (Part.mk "images") ++ (f.pdf.map (Part.mk "pdf") ++
        (f.json.map (Part.mk "json") ++ f.txt.map (Part.mk "txt"))) := by
  simp [buildFormData, categoryOrder, FileState.get, Category.fieldOf]

/-- Once the guard passes, every outcome path records exactly the one
issued request. -/
lemma handleSubmit_requests (s : AppState) (net : Request → FetchOutcome)
    (h : hasAnyFiles s.files = true) :
    (handleSubmit s net).requests = [uploadRequest s.files] := by
  unfold handleSubmit
  rw [if_neg (by simp [h])]
  cases net (uploadRequest s.files) with
  | transportFail msg => rfl
  | response ok jsonBody =>
      cases jsonBody with
      | error msg => rfl
      | ok result => cases ok <;> rfl

/-! ## Claim theorems -/

/-- Claim C1: for every state in which at least one category's sequence is
non-empty, `handleSubmit` issues exactly one POST request to
`http://localhost:5000/upload` whose body iterates the categories in the
fixed order images, pdf, json, txt, appending every file of each category
as a part whose field name is the category name verbatim — whatever the
network outcome is. -/
theorem submit_single_post (s : AppState) (net : Request → FetchOutcome)
    (h : hasAnyFiles s.files = true) :
    (handleSubmit s net).requests =
      [{ method := "POST", url := "http://localhost:5000/upload",
         body := s.files.images.map (Part.mk "images") ++
           (s.files.pdf.map (Part.mk "pdf") ++
             (s.files.json.map (Part.mk "json") ++
               s.files.txt.map (Part.mk "txt"))) }] := by
  rw [handleSubmit_requests s net h]
  simp only [uploadRequest, buildFormData_eq]

/-- Witness for C1: one staged image yields exactly one POST with a single
`images` part. -/
theorem submit_single_post_witness :
    (handleSubmit (⟨⟨[File.mk "a"], [], [], []⟩, ""⟩ : AppState)
        (fun _ => .transportFail none)).requests =
      [{ method := "POST", url := "http://localhost:5000/upload",
         body := [Part.mk "images" (File.mk "a")] }] := by
  have h := submit_single_post ⟨⟨[File.mk "a"], [], [], []⟩, ""⟩
    (fun _ => .transportFail none) (by decide)
  simpa using h

/-- Claim C2: with all four category sequences empty, `handleSubmit` sets
the error to the fixed no-files message, issues no request, surfaces no
confirmation, and leaves the file state unchanged. -/
theorem submit_no_files (s : AppState) (net : Request → FetchOutcome)
    (h : s.files = FileState.empty) :
    handleSubmit s net =
      { state := { files := s.files, error := noFilesMsg },
        requests := [], alerts := [] } := by
  have hh : hasAnyFiles s.files = false := by rw [h]; rfl
  unfold handleSubmit
  rw [if_pos (by simp [hh])]

/-- Witness for C2 at the freshly mounted state. -/
theorem submit_no_files_witness :
    handleSubmit (⟨FileState.empty, ""⟩ : AppState) (fun _ => .transportFail none) =
      { state := ⟨FileState.empty, noFilesMsg⟩, requests := [], alerts := [] } := by
  exact submit_no_files ⟨FileState.empty, ""⟩ (fun _ => .transportFail none) rfl

/-- Claim C3: when the response has a success status (and its body parses),
the component surfaces one blocking confirmation containing the
server-reported list of accepted files, resets every category to empty and
clears the error message. -/
theorem submit_success_confirms_and_resets (s : AppState)
    (net : Request → FetchOutcome) (body : ResponseBody)
    (h : hasAnyFiles s.files = true)
    (hnet : net (uploadRequest s.files) = .response true (.ok body)) :
    (handleSubmit s net).alerts =
      ["Files uploaded successfully: " ++ stringifyUploaded body.uploaded_files] ∧
    (∀ c, (handleSubmit s net).state.files.get c = []) ∧
    (handleSubmit s net).state.error = "" := by
  unfold handleSubmit
  rw [if_neg (by simp [h]), hnet]
  refine ⟨rfl, ?_, rfl⟩
  intro c
  cases c <;> rfl

/-- Witness for C3: HTTP 200 with body listing `f1` surfaces a confirmation
showing `f1`, empties the staged images and clears the stale error. -/
theorem submit_success_witness :
    (handleSubmit (⟨⟨[File.mk "f1"], [], [], []⟩, "old"⟩ : AppState)
        (fun _ => .response true (.ok ⟨some ["f1"], none⟩))).alerts =
      ["Files uploaded successfully: [\n  \"f1\"\n]"] ∧
    (handleSubmit (⟨⟨[File.mk "f1"], [], [], []⟩, "old"⟩ : AppState)
        (fun _ => .response true (.ok ⟨some ["f1"], none⟩))).state.files.get .images
      = [] ∧
    (handleSubmit (⟨⟨[File.mk "f1"], [], [], []⟩, "old"⟩ : AppState)
        (fun _ => .response true (.ok ⟨some ["f1"], none⟩))).state.error = "" := by
  have h := submit_success_confirms_and_resets
    ⟨⟨[File.mk "f1"], [], [], []⟩, "old"⟩
    (fun _ => .response true (.ok ⟨some ["f1"], none⟩))
    ⟨some ["f1"], none⟩ (by decide) rfl
  exact ⟨by rw [h.1]; rfl, h.2.1 .images, h.2.2⟩

/-- Counterexample to C4 as stated: the body's error field is *present*
(`some ""`) yet the error message becomes the generic fallback, not that
field's value, because `result.error || ...` treats the empty string as
falsy. -/
theorem submit_rejection_empty_error_counterexample :
    (ResponseBody.mk none (some "")).error = some "" ∧
    (handleSubmit (⟨⟨[File.mk "f1"], [], [], []⟩, ""⟩ : AppState)
        (fun _ => .response false (.ok ⟨none, some ""⟩))).state.error
      = uploadFailedMsg ∧
    uploadFailedMsg ≠ "" := by
  exact ⟨rfl, rfl, by decide⟩

/-- Claim C4 (amended): on a failure-status response, the error message is
set to the body's error field when that field is present and non-empty, and
to the generic fallback when it is absent or empty; the staged files are
left exactly as they were and no confirmation is surfaced. -/
theorem submit_rejection_preserves_state (s : AppState)
    (net : Request → FetchOutcome) (body : ResponseBody)
    (h : hasAnyFiles s.files = true)
    (hnet : net (uploadRequest s.files) = .response false (.ok body)) :
    (handleSubmit s net).state.files = s.files ∧
    (handleSubmit s net).alerts = [] ∧
    (∀ e, body.error = some e → e ≠ "" → (handleSubmit s net).state.error = e) ∧
    ((body.error = none ∨ body.error = some "") →
      (handleSubmit s net).state.error = uploadFailedMsg) := by
  unfold handleSubmit
  rw [if_neg (by simp [h]), hnet]
  refine ⟨rfl, rfl, ?_, ?_⟩
  · intro e he hne
    simp [orFallback, he, hne]
  · rintro (he | he) <;> simp [orFallback, he]

/-- Witness for C4: HTTP 400 with body error `bad file` keeps the staged
image and reports `bad file`. -/
theorem submit_rejection_witness :
    (handleSubmit (⟨⟨[File.mk "f1"], [], [], []⟩, ""⟩ : AppState)
        (fun _ => .response false (.ok ⟨none, some "bad file"⟩))).state.files
      = ⟨[File.mk "f1"], [], [], []⟩ ∧
    (handleSubmit (⟨⟨[File.mk "f1"], [], [], []⟩, ""⟩ : AppState)
        (fun _ => .response false (.ok ⟨none, some "bad file"⟩))).state.error
      = "bad file" := by
  have h := submit_rejection_preserves_state
    ⟨⟨[File.mk "f1"], [], [], []⟩, ""⟩
    (fun _ => .response false (.ok ⟨none, some "bad file"⟩))
    ⟨none, some "bad file"⟩ (by decide) rfl
  exact ⟨h.1, h.2.2.1 "bad file" rfl (by decide)⟩

/-- Counterexample to C5 as stated: a transport failure whose description is
*available* but empty (`some ""`) yields the generic fallback, not the empty
description, because `err.message || ...` treats it as falsy. -/
theorem submit_transport_empty_message_counterexample :
    (handleSubmit (⟨⟨[File.mk "f1"], [], [], []⟩, ""⟩ : AppState)
        (fun _ => .transportFail (some ""))).state.error = uploadErrorMsg ∧
    uploadErrorMsg ≠ "" := by
  exact ⟨rfl, by decide⟩

/-- Claim C5 (amended): on a transport-level failure, the error message is
set to the failure's description when it is available and non-empty, and to
the generic fallback when it is absent or empty; the staged files are left
exactly as they were and no confirmation is surfaced. -/
theorem submit_transport_preserves_state (s : AppState)
    (net : Request → FetchOutcome) (msg : Option String)
    (h : hasAnyFiles s.files = true)
    (hnet : net (uploadRequest s.files) = .transportFail msg) :
    (handleSubmit s net).state.files = s.files ∧
    (handleSubmit s net).alerts = [] ∧
    (∀ m, msg = some m → m ≠ "" → (handleSubmit s net).state.error = m) ∧
    ((msg = none ∨ msg = some "") →
      (handleSubmit s net).state.error = uploadErrorMsg) := by
  unfold handleSubmit
  rw [if_neg (by simp [h]), hnet]
  refine ⟨rfl, rfl, ?_, ?_⟩
  · intro m hm hne
    simp [orFallback, hm, hne]
  · rintro (hm | hm) <;> simp [orFallback, hm]

/-- Witness for C5: a rejected fetch with message `Failed to fetch` keeps
the staged image and reports that message. -/
theorem submit_transport_witness :
    (handleSubmit (⟨⟨[File.mk "f1"], [], [], []⟩, ""⟩ : AppState)
        (fun _ => .transportFail (some "Failed to fetch"))).state.files
      = ⟨[File.mk "f1"], [], [], []⟩ ∧
    (handleSubmit (⟨⟨[File.mk "f1"], [], [], []⟩, ""⟩ : AppState)
        (fun _ => .transportFail (some "Failed to fetch"))).state.error
      = "Failed to fetch" := by
  have h := submit_transport_preserves_state
    ⟨⟨[File.mk "f1"], [], [], []⟩, ""⟩
    (fun _ => .transportFail (some "Failed to fetch"))
    (some "Failed to fetch") (by decide) rfl
  exact ⟨h.1, h.2.2.1 "Failed to fetch" rfl (by decide)⟩

/-- Claim C6: selecting a non-empty batch for a category replaces that
category's whole sequence (a later selection discards the earlier one, so
it is replacement, not append), leaves every other category unchanged and
clears the error message. -/
theorem selectFiles_replaces (s : AppState) (c : Category)
    (sel sel2 : List File) (h1 : sel ≠ []) (h2 : sel2 ≠ []) :
    (handleFileChange s c (some sel)).files.get c = sel ∧
    (handleFileChange s c (some sel)).error = "" ∧
    (∀ c2, c2 ≠ c →
      (handleFileChange s c (some sel)).files.get c2 = s.files.get c2) ∧
    (handleFileChange (handleFileChange s c (some sel)) c (some sel2)).files.get c
      = sel2 := by
  refine ⟨?_, rfl, ?_, ?_⟩
  · exact FileState.get_set_same s.files c sel
  · intro c2 hc2
    exact FileState.get_set_other s.files c c2 sel hc2
  · exact FileState.get_set_same _ c sel2

/-- Witness for C6: selecting `[f1, f2]` and then `[f3]` for `pdf` leaves
exactly `[f3]` staged. -/
theorem selectFiles_replaces_witness :
    (handleFileChange
        (⟨⟨[], [], [], []⟩, "old error"⟩ : AppState) .pdf
        (some [File.mk "x"])).files.get .pdf = [File.mk "x"] ∧
    (handleFileChange (handleFileChange
        (⟨⟨[], [], [], []⟩, "old error"⟩ : AppState) .pdf
        (some [File.mk "f1", File.mk "f2"])) .pdf
        (some [File.mk "f3"])).files.get .pdf = [File.mk "f3"] := by
  refine ⟨?_, ?_⟩
  · exact (selectFiles_replaces ⟨⟨[], [], [], []⟩, "old error"⟩ .pdf
      [File.mk "x"] [File.mk "y"] (by decide) (by decide)).1
  · exact (selectFiles_replaces ⟨⟨[], [], [], []⟩, "old error"⟩ .pdf
      [File.mk "f1", File.mk "f2"] [File.mk "f3"] (by decide) (by decide)).2.2.2

/-- Counterexample to C7 as stated: a *present but empty* selection is not a
no-op — the JavaScript truthiness test on the `FileList` object passes, so
the category's sequence is wiped and the error message is cleared. -/
theorem selectFiles_empty_counterexample :
    (handleFileChange
        (⟨⟨[File.mk "a"], [], [], []⟩, "stale"⟩ : AppState) .images
        (some [])).files
      ≠ (⟨⟨[File.mk "a"], [], [], []⟩, "stale"⟩ : AppState).files ∧
    (handleFileChange
        (⟨⟨[File.mk "a"], [], [], []⟩, "stale"⟩ : AppState) .images
        (some [])).error
      ≠ "stale" := by
  decide

/-- Claim C7 (amended): an absent selection (the picker reported `null`) is
a no-op on both the file state and the error message; a present-but-empty
selection instead replaces the category's sequence with the empty sequence
and clears the error message. -/
theorem selectFiles_absent_vs_empty (s : AppState) (c : Category) :
    handleFileChange s c none = s ∧
    (handleFileChange s c (some [])).files = s.files.set c [] ∧
    (handleFileChange s c (some [])).error = "" := by
  exact ⟨rfl, rfl, rfl⟩

/-- Claim C8: `removeFile` on an in-range index removes exactly the element
at that position, keeping the rest in their relative order, and is the
identity on the sequence when the index is out of range. -/
theorem removeFile_removes_at_index (s : AppState) (c : Category) (i : Nat) :
    (removeFile s c i).files.get c =
      if i < (s.files.get c).length then
        (s.files.get c).take i ++ (s.files.get c).drop (i + 1)
      else s.files.get c := by
  rw [removeFile_get, filterIdxNe_spec]

/-- Counterexample to C9 as stated: on `[a, b, c]`, removing index 0 twice
removes a second, different element — `b` survives the first call but is
gone after the second, which returns `[c]`. -/
theorem removeFile_twice_counterexample :
    File.mk "b" ∈
      (removeFile (⟨⟨[File.mk "a", File.mk "b", File.mk "c"], [], [], []⟩, ""⟩ : AppState)
        .images 0).files.images ∧
    File.mk "b" ∉
      (removeFile (removeFile
          (⟨⟨[File.mk "a", File.mk "b", File.mk "c"], [], [], []⟩, ""⟩ : AppState)
          .images 0) .images 0).files.images ∧
    (removeFile (removeFile
        (⟨⟨[File.mk "a", File.mk "b", File.mk "c"], [], [], []⟩, ""⟩ : AppState)
        .images 0) .images 0).files.images = [File.mk "c"] := by
  decide

/-- Claim C9 (amended): `removeFile`'s index is positional at each call, so
repeating a now-stale index removes the element that shifted into that
position — a second, different element — whenever one exists; the repeat is
harmless only when the first removal left the index out of range (the index
was the last position). -/
theorem removeFile_twice_positional (s : AppState) (c : Category) (i : Nat) :
    (removeFile (removeFile s c i) c i).files.get c =
      if i + 1 < (s.files.get c).length then
        (s.files.get c).take i ++ (s.files.get c).drop (i + 2)
      else if i < (s.files.get c).length then
        (s.files.get c).take i
      else s.files.get c := by
  rw [removeFile_get, removeFile_get, filterIdxNe_spec, filterIdxNe_spec]
  set l := s.files.get c with hl
  by_cases h1 : i < l.length
  · rw [if_pos h1]
    have hlen : (l.take i ++ l.drop (i + 1)).length = l.length - 1 := by
      simp only [List.length_append, List.length_take, List.length_drop]
      omega
    by_cases h2 : i + 1 < l.length
    · rw [if_pos (by rw [hlen]; omega), if_pos h2]
      rw [List.take_append_eq_append_take, List.drop_append_eq_append_drop,
        List.take_take, List.length_take]
      have hmin : min i l.length = i := by omega
      have hmin2 : min i i = i := by omega
      rw [hmin, hmin2, Nat.sub_self]
      rw [List.take_zero, List.append_nil,
        List.drop_eq_nil_of_le (by rw [List.length_take]; omega),
        List.drop_drop, List.nil_append]
      have harith : i + 1 + (i + 1 - i) = i + 2 := by omega
      rw [harith]
    · rw [if_neg (by rw [hlen]; omega), if_neg h2]
      rw [List.drop_eq_nil_of_le (by omega), List.append_nil, if_pos h1]
  · rw [if_neg h1, if_neg h1, if_neg (by omega), if_neg (by omega)]

/-- Claim C10: when `response.json()` fails to parse, the outcome is the
transport-failure path for *any* status, a success status included: the
error message comes from the parse failure (or the generic fallback), no
confirmation is surfaced, and the file state is not reset — because the
body is parsed before the status is inspected. -/
theorem submit_parse_failure_overrides_status (s : AppState)
    (net : Request → FetchOutcome) (msg : Option String) (ok : Bool)
    (h : hasAnyFiles s.files = true)
    (hnet : net (uploadRequest s.files) = .response ok (.error msg)) :
    (handleSubmit s net).state.files = s.files ∧
    (handleSubmit s net).alerts = [] ∧
    (∀ m, msg = some m → m ≠ "" → (handleSubmit s net).state.error = m) ∧
    ((msg = none ∨ msg = some "") →
      (handleSubmit s net).state.error = uploadErrorMsg) := by
  unfold handleSubmit
  rw [if_neg (by simp [h]), hnet]
  refine ⟨rfl, rfl, ?_, ?_⟩
  · intro m hm hne
    simp [orFallback, hm, hne]
  · rintro (hm | hm) <;> simp [orFallback, hm]

/-- Witness for C10: a 200-status response whose body fails to parse keeps
the staged image (no reset), shows no confirmation and reports the parse
failure's message. -/
theorem submit_parse_failure_witness :
    (handleSubmit (⟨⟨[File.mk "f1"], [], [], []⟩, ""⟩ : AppState)
        (fun _ => .response true (.error (some "Unexpected end of JSON input")))).state.files
      = ⟨[File.mk "f1"], [], [], []⟩ ∧
    (handleSubmit (⟨⟨[File.mk "f1"], [], [], []⟩, ""⟩ : AppState)
        (fun _ => .response true (.error (some "Unexpected end of JSON input")))).alerts
      = [] ∧
    (handleSubmit (⟨⟨[File.mk "f1"], [], [], []⟩, ""⟩ : AppState)
        (fun _ => .response true (.error (some "Unexpected end of JSON input")))).state.error
      = "Unexpected end of JSON input" := by
  have h := submit_parse_failure_overrides_status
    ⟨⟨[File.mk "f1"], [], [], []⟩, ""⟩
    (fun _ => .response true (.error (some "Unexpected end of JSON input")))
    (some "Unexpected end of JSON input") true (by decide) rfl
  exact ⟨h.1, h.2.1, h.2.2.1 "Unexpected end of JSON input" rfl (by decide)⟩

end UploadForm
